import Mathlib

/-!
# Node bootstrap of the minimal Mist application (`src/main.c`)

A shallow embedding of `radio_setup` and `main_loop`.

* Pointers to `comms_layer_t` are natural numbers, `NULL` is `0`.
* Constants that come from headers outside the source tree
  (`DEFAULT_AM_ADDR`, `COMMS_SUCCESS`, ...) and the compile-time switch
  `INCLUDE_BEATSTACK` are fields of `Consts`.
* The collaborators (signature store, radio driver, mesh stack, layer control,
  announcement service, kernel counter) are black boxes: what they return is
  given by an `Env`.  A call made at most once in an execution is a function of
  its arguments; `comms_status` and `osCounterGetSecond`, called in loops, are
  in addition indexed by the number of the call.
* Every call the code makes and every log line is recorded, in program order,
  in a trace of `Event`s, together with the value the call returned.  A log
  line is recorded wherever the source has a log statement, whatever the
  compile-time log level.  The arguments `&disco`, `&cache` of
  `comms_am_addrdisco_init` and `radio_start_done`, `NULL` of `comms_start`
  are the same in every call and are left out of the events.
* The completion callback `radio_start_done` is run by the communication
  layer, not by the main thread; its debug line is not part of the trace.
* The two waiting loops are unbounded in the source; the embedding runs them
  on fuel and says in the result when the fuel ran out inside them.  The empty
  loops `while (1);` and `for (;;);` are the result `halted`.
-/

namespace MistExample

/-- A pointer to a `comms_layer_t`. -/
abbrev Ptr := Nat

/-- The null pointer. -/
def NULL : Ptr := 0

/-- The period handed to the announcement service (`main.c`, line 43). -/
def DEVICE_ANNOUNCEMENT_PERIOD_S : Nat := 300

/-- Constants of headers that are not part of the source tree, and the
compile-time switch between the multi-hop and the single-hop build. -/
structure Consts where
  DEFAULT_RADIO_CHANNEL : Nat
  DEFAULT_PAN_ID : Nat
  DEFAULT_AM_ADDR : Nat
  COMMS_SUCCESS : Int
  COMMS_STARTED : Int
  SIG_GOOD : Int
  INCLUDE_BEATSTACK : Bool

/-- What the collaborators return. -/
structure Env where
  /-- Result of `sigInit()`. -/
  sigInit : Int
  /-- Result of `sigGetNodeId()`. -/
  sigGetNodeId : Nat
  /-- The bytes `sigGetEui64(buf)` stores into `buf`. -/
  sigGetEui64 : List Nat
  /-- Result of `radio_init(channel, pan, address)`. -/
  radio_init : Nat → Nat → Nat → Ptr
  /-- Result of `beatstack_create(address, radio)`. -/
  beatstack_create : Nat → Ptr → Ptr
  /-- Result of `comms_start(comms, radio_start_done, NULL)`. -/
  comms_start : Ptr → Int
  /-- Result of the `i`-th call (from 0) of `comms_status(comms)`. -/
  comms_status : Nat → Ptr → Int
  /-- Result of `announcement_app_init(comms, period)`. -/
  announcement_app_init : Ptr → Nat → Int
  /-- Result of `mist_middleware_version(NULL, NULL, NULL)`. -/
  mist_middleware_version : String
  /-- Result of the `i`-th call (from 0) of `osCounterGetSecond()`. -/
  osCounterGetSecond : Nat → Nat

/-- Severity of a log line: `debug`/`debug1`, `info1`/`infob1`, `err1`. -/
inductive LogLevel where
  | debug
  | info
  | err
  deriving DecidableEq, Repr

/-- An argument of a log line. -/
inductive LogArg where
  | num (n : Int)
  | str (s : String)
  deriving DecidableEq, Repr

/-- One observable action of the main thread: a call of a collaborator (with
its arguments and, where it has one, the value it returned) or a log line. -/
inductive Event where
  | logger_ldma_init
  | log_init
  | sigInit (ret : Int)
  | sigGetNodeId (ret : Nat)
  | sigGetEui64 (written : List Nat)
  /-- The call `eui64_set(&g_eui, eui)`. -/
  | eui64_set_g_eui (eui : List Nat)
  | log (lvl : LogLevel) (fmt : String) (args : List LogArg)
  /-- A log line that also dumps a buffer (`infob1`). -/
  | logb (lvl : LogLevel) (fmt : String) (buf : List Nat) (args : List LogArg)
  | radio_init (channel pan addr : Nat) (ret : Ptr)
  /-- The call `eui64_set(&(radio->eui), eui)`. -/
  | eui64_set_radio (radio : Ptr) (eui : List Nat)
  | beatstack_create (addr : Nat) (radio : Ptr) (ret : Ptr)
  | comms_am_addrdisco_init (comms : Ptr)
  | comms_start (comms : Ptr) (ret : Int)
  | comms_status (comms : Ptr) (ret : Int)
  | osDelay (ticks : Nat)
  | announcement_app_init (comms : Ptr) (period : Nat) (ret : Int)
  | mist_middleware_version
  | mist_middleware_init (comms : Ptr)
  | mist_example_init
  | osCounterGetSecond (ret : Nat)
  deriving DecidableEq, Repr

/-- The globals of `main.c`: `g_eui.data` and (multi-hop build) `m_beat_comm`. -/
structure State where
  g_eui : List Nat
  m_beat_comm : Ptr
  deriving DecidableEq, Repr

/-- The globals at program start: static storage is zero-initialised and
`m_beat_comm` is initialised to `NULL`. -/
def State.boot : State := ⟨List.replicate 8 0, NULL⟩

/-- How a call of `radio_setup` ends. -/
inductive Ending where
  /-- The function returned this pointer. -/
  | returned (p : Ptr)
  /-- Control entered the empty loop `while (1);`. -/
  | halted
  /-- The fuel ran out in the loop that waits for `COMMS_STARTED`. -/
  | waiting
  deriving DecidableEq, Repr

/-- Result of running `radio_setup`. -/
structure Run where
  state : State
  trace : List Event
  ending : Ending
  deriving DecidableEq, Repr

/-- Where `main_loop`, which never returns, stays. -/
inductive Fate where
  /-- In an empty loop: `for (;;);` of `main_loop` or `while (1);` of
  `radio_setup`. -/
  | halted
  /-- The fuel ran out in the loop of `radio_setup` that waits for
  `COMMS_STARTED`. -/
  | waiting
  /-- In the uptime loop at the end of `main_loop`. -/
  | heartbeat
  deriving DecidableEq, Repr

/-- Result of running `main_loop`. -/
structure MainRun where
  state : State
  trace : List Event
  fate : Fate
  deriving DecidableEq, Repr

/-- Modelled from the spec: `eui64_set` belongs to a library outside the source
tree; it stores the 8-byte identifier `src` into its destination.  The value is
the destination afterwards. -/
def eui64_set (src : List Nat) : List Nat := src.take 8

/-- The completion callback handed to `comms_start` (lines 53-56): one debug
line.  It is called by the communication layer, not by the main thread. -/
def radio_start_done (status : Int) : List Event :=
  [Event.log LogLevel.debug "started %d" [LogArg.num status]]

/-- The loop `while (COMMS_STARTED != comms_status(comms)) osDelay(1);`
(lines 90-93 and 108-111), run for at most `fuel` polls, the first of which is
poll number `i`.  The result is the events of the loop and whether the loop was
left. -/
def waitStarted (c : Consts) (env : Env) (comms : Ptr) : Nat → Nat → List Event × Bool
  | 0, _ => ([], false)
  | fuel + 1, i =>
    let s := env.comms_status i comms
    if c.COMMS_STARTED ≠ s then
      let r := waitStarted c env comms fuel (i + 1)
      (Event.comms_status comms s :: Event.osDelay 1 :: r.1, r.2)
    else
      ([Event.comms_status comms s], true)

/-- The function `radio_setup` (lines 59-116). -/
def radio_setup (c : Consts) (env : Env) (fuel : Nat) (st : State)
    (node_addr : Nat) (eui : List Nat) : Run :=
  let radio := env.radio_init c.DEFAULT_RADIO_CHANNEL c.DEFAULT_PAN_ID node_addr
  let t := [Event.radio_init c.DEFAULT_RADIO_CHANNEL c.DEFAULT_PAN_ID node_addr radio]
  if NULL = radio then
    ⟨st, t, Ending.returned NULL⟩
  else
    let t := t ++ [Event.eui64_set_radio radio eui]
    if c.INCLUDE_BEATSTACK then
      let t := t ++ [Event.log LogLevel.info "Starting multi-hop" []]
      let m_beat_comm := env.beatstack_create node_addr radio
      let st := { st with m_beat_comm := m_beat_comm }
      let t := t ++ [Event.beatstack_create node_addr radio m_beat_comm]
      if NULL = m_beat_comm then
        ⟨st, t ++ [Event.log LogLevel.err "bs start" []], Ending.halted⟩
      else
        let t := t ++ [Event.comms_am_addrdisco_init m_beat_comm]
        let s := env.comms_start m_beat_comm
        let t := t ++ [Event.comms_start m_beat_comm s]
        if c.COMMS_SUCCESS ≠ s then
          ⟨st, t, Ending.returned NULL⟩
        else
          let w := waitStarted c env m_beat_comm fuel 0
          if w.2 then
            ⟨st, t ++ w.1 ++ [Event.log LogLevel.debug "radio rdy" []], Ending.returned radio⟩
          else
            ⟨st, t ++ w.1, Ending.waiting⟩
    else
      let t := t ++ [Event.log LogLevel.info "Starting single-hop" []]
      let t := t ++ [Event.comms_am_addrdisco_init radio]
      let s := env.comms_start radio
      let t := t ++ [Event.comms_start radio s]
      if c.COMMS_SUCCESS ≠ s then
        ⟨st, t, Ending.returned NULL⟩
      else
        let w := waitStarted c env radio fuel 0
        if w.2 then
          ⟨st, t ++ w.1 ++ [Event.log LogLevel.debug "radio rdy" []], Ending.returned radio⟩
        else
          ⟨st, t ++ w.1, Ending.waiting⟩

/-- Lines 124-135 of `main_loop`: the node address and the identifier.  The
result is `node_addr`, the globals (with `g_eui` set) and the events. -/
def main_loop_identity (c : Consts) (env : Env) (st : State) : Nat × State × List Event :=
  let node_addr := c.DEFAULT_AM_ADDR % 65536
  let sig := env.sigInit
  if c.SIG_GOOD = sig then
    let node_addr := env.sigGetNodeId % 65536
    (node_addr, { st with g_eui := env.sigGetEui64 },
      [Event.sigInit sig, Event.sigGetNodeId env.sigGetNodeId,
       Event.sigGetEui64 env.sigGetEui64])
  else
    let eui := [0, 0, 0, 0, 0, 0, (node_addr >>> 8) % 256, node_addr % 256]
    (node_addr, { st with g_eui := eui64_set eui },
      [Event.sigInit sig, Event.eui64_set_g_eui eui])

/-- The first `n` rounds of the uptime loop (lines 172-176), the first of which
makes call number `i` of `osCounterGetSecond`. -/
def heartbeat (env : Env) : Nat → Nat → List Event
  | 0, _ => []
  | n + 1, i =>
    let up := env.osCounterGetSecond i
    Event.osCounterGetSecond up
      :: Event.log LogLevel.info "uptime: %u" [LogArg.num ((up % 4294967296 : Nat) : Int)]
      :: Event.osDelay 60000
      :: heartbeat env n (i + 1)

/-- The function `main_loop` (lines 118-177).  `fuel` bounds the polls of the
wait in `radio_setup`, `n` is the number of rounds of the uptime loop that are
run. -/
def main_loop (c : Consts) (env : Env) (fuel n : Nat) : MainRun :=
  let t := [Event.logger_ldma_init, Event.log_init]
  let id := main_loop_identity c env State.boot
  let node_addr := id.1
  let st := id.2.1
  let t := t ++ id.2.2
  let t := t ++ [Event.logb LogLevel.info "ADDR:%X EUI64:" st.g_eui
    [LogArg.num (node_addr : Int)]]
  let rs := radio_setup c env fuel st node_addr st.g_eui
  let st := rs.state
  let t := t ++ rs.trace
  match rs.ending with
  | Ending.halted => ⟨st, t, Fate.halted⟩
  | Ending.waiting => ⟨st, t, Fate.waiting⟩
  | Ending.returned radio =>
    if NULL = radio then
      ⟨st, t ++ [Event.log LogLevel.err "radio" []], Fate.halted⟩
    else
      let comms := if c.INCLUDE_BEATSTACK then st.m_beat_comm else radio
      let a := env.announcement_app_init comms DEVICE_ANNOUNCEMENT_PERIOD_S
      let t := t ++ [Event.announcement_app_init comms DEVICE_ANNOUNCEMENT_PERIOD_S a]
      let t := t ++ (if 0 = a then [Event.log LogLevel.debug "annc started" []]
        else [Event.log LogLevel.err "annc" []])
      let t := t ++ [Event.mist_middleware_version,
        Event.log LogLevel.info "mist middleware %s" [LogArg.str env.mist_middleware_version]]
      let t := t ++ [Event.mist_middleware_init comms]
      let t := t ++ [Event.mist_example_init]
      ⟨st, t ++ heartbeat env n 0, Fate.heartbeat⟩

/-- The identity `main_loop` resolves: the address and the identifier it passes
to `radio_setup` (line 139). -/
def resolvedIdentity (c : Consts) (env : Env) : Nat × List Nat :=
  ((main_loop_identity c env State.boot).1, (main_loop_identity c env State.boot).2.1.g_eui)

/-- The call of `radio_setup` that `main_loop` makes (line 139). -/
def bootstrap (c : Consts) (env : Env) (fuel : Nat) : Run :=
  radio_setup c env fuel (main_loop_identity c env State.boot).2.1
    (resolvedIdentity c env).1 (resolvedIdentity c env).2

/-- The events of `main_loop` before its call of `radio_setup`
(lines 121-136). -/
def beforeBootstrap (c : Consts) (env : Env) : List Event :=
  [Event.logger_ldma_init, Event.log_init] ++ (main_loop_identity c env State.boot).2.2 ++
    [Event.logb LogLevel.info "ADDR:%X EUI64:" (resolvedIdentity c env).2
      [LogArg.num ((resolvedIdentity c env).1 : Int)]]

/-- The layer `main_loop` hands to the announcement service and the middleware
(lines 148-152 and 163-167). -/
def consumerLayer (c : Consts) (st : State) (radio : Ptr) : Ptr :=
  if c.INCLUDE_BEATSTACK then st.m_beat_comm else radio

/-- The events of `main_loop` after a successful `radio_setup`, up to the
uptime loop (lines 147-169). -/
def afterBootstrap (env : Env) (comms : Ptr) : List Event :=
  [Event.announcement_app_init comms DEVICE_ANNOUNCEMENT_PERIOD_S
      (env.announcement_app_init comms DEVICE_ANNOUNCEMENT_PERIOD_S),
    if 0 = env.announcement_app_init comms DEVICE_ANNOUNCEMENT_PERIOD_S then
      Event.log LogLevel.debug "annc started" []
    else Event.log LogLevel.err "annc" [],
    Event.mist_middleware_version,
    Event.log LogLevel.info "mist middleware %s" [LogArg.str env.mist_middleware_version],
    Event.mist_middleware_init comms,
    Event.mist_example_init]

/-- The result of `radio_init` in `radio_setup` (line 64). -/
def radioLayer (c : Consts) (env : Env) (node_addr : Nat) : Ptr :=
  env.radio_init c.DEFAULT_RADIO_CHANNEL c.DEFAULT_PAN_ID node_addr

/-- The active layer of `radio_setup`: the one address discovery is bound to,
`comms_start` is called on and whose status is polled.  It is `m_beat_comm`
in the multi-hop build (lines 82-90) and `radio` otherwise (lines 100-108). -/
def activeLayer (c : Consts) (env : Env) (node_addr : Nat) : Ptr :=
  if c.INCLUDE_BEATSTACK then env.beatstack_create node_addr (radioLayer c env node_addr)
  else radioLayer c env node_addr

/-- The events of `radio_setup` up to the point where the active layer is
known (lines 64-73 and 98). -/
def attachTrace (c : Consts) (env : Env) (node_addr : Nat) (eui : List Nat) : List Event :=
  [Event.radio_init c.DEFAULT_RADIO_CHANNEL c.DEFAULT_PAN_ID node_addr (radioLayer c env node_addr),
    Event.eui64_set_radio (radioLayer c env node_addr) eui] ++
  (if c.INCLUDE_BEATSTACK then
    [Event.log LogLevel.info "Starting multi-hop" [],
      Event.beatstack_create node_addr (radioLayer c env node_addr) (activeLayer c env node_addr)]
  else [Event.log LogLevel.info "Starting single-hop" []])

/-- The globals after the assignment of line 73, which only the multi-hop
build has. -/
def attachState (c : Consts) (env : Env) (st : State) (node_addr : Nat) : State :=
  if c.INCLUDE_BEATSTACK then { st with m_beat_comm := activeLayer c env node_addr } else st

/-- A status poll. -/
def Event.isPoll : Event → Bool
  | Event.comms_status _ _ => true
  | _ => false

/-- A delay. -/
def Event.isDelay : Event → Bool
  | Event.osDelay _ => true
  | _ => false

/-- An error log line. -/
def Event.isErr : Event → Bool
  | Event.log LogLevel.err _ _ => true
  | Event.logb LogLevel.err _ _ _ => true
  | _ => false

/-- A call of the announcement service. -/
def Event.isAnnouncementInit : Event → Bool
  | Event.announcement_app_init _ _ _ => true
  | _ => false

/-- A call of `mist_middleware_init`. -/
def Event.isMiddlewareInit : Event → Bool
  | Event.mist_middleware_init _ => true
  | _ => false

/-- A call of `mist_example_init`. -/
def Event.isExampleInit : Event → Bool
  | Event.mist_example_init => true
  | _ => false

/-- A round of the uptime loop reading the counter. -/
def Event.isUptime : Event → Bool
  | Event.osCounterGetSecond _ => true
  | _ => false

/-- The events of `k` polls that do not see `COMMS_STARTED`, the first of
which is poll number `i`: each is followed by `osDelay(1)`. -/
def failedPolls (env : Env) (comms : Ptr) : Nat → Nat → List Event
  | 0, _ => []
  | k + 1, i =>
    Event.comms_status comms (env.comms_status i comms) :: Event.osDelay 1 ::
      failedPolls env comms k (i + 1)

/-- An event of the identity stage of `main_loop` (lines 121-136). -/
def Event.isIdentityStage : Event → Bool
  | Event.logger_ldma_init => true
  | Event.log_init => true
  | Event.sigInit _ => true
  | Event.sigGetNodeId _ => true
  | Event.sigGetEui64 _ => true
  | Event.eui64_set_g_eui _ => true
  | Event.logb LogLevel.info _ _ _ => true
  | _ => false

/-- An event that `radio_setup` can produce. -/
def Event.isBootstrapStage : Event → Bool
  | Event.radio_init _ _ _ _ => true
  | Event.eui64_set_radio _ _ => true
  | Event.log _ _ _ => true
  | Event.beatstack_create _ _ _ => true
  | Event.comms_am_addrdisco_init _ => true
  | Event.comms_start _ _ => true
  | Event.comms_status _ _ => true
  | Event.osDelay _ => true
  | _ => false

/-- Sample constants: channel 11, PAN 0x22, default address 1,
`COMMS_SUCCESS = 0`, `COMMS_STARTED = 1`, `SIG_GOOD = 0`. -/
def sampleConsts (multihop : Bool) : Consts :=
  ⟨11, 0x22, 1, 0, 1, 0, multihop⟩

/-- A sample environment: no valid signature, the radio is layer 7, the mesh
stack is layer 9, the start request is accepted, the third status poll sees
`COMMS_STARTED`, the announcement service starts. -/
def sampleEnv : Env :=
  ⟨1, 0xBEEF, [1, 2, 3, 4, 5, 6, 7, 8], fun _ _ _ => 7, fun _ _ => 9, fun _ => 0,
    fun i _ => if i < 2 then 0 else 1, fun _ _ => 0, "1.0", fun i => 60 * i⟩

/-- The sample environment with a valid signature (`sigInit` returns
`SIG_GOOD` of the sample constants). -/
def signedEnv : Env := { sampleEnv with sigInit := 0 }

/-- The sample environment with a radio driver whose init fails. -/
def deadRadioEnv : Env := { sampleEnv with radio_init := fun _ _ _ => 0 }

/-- The sample environment with a mesh stack that cannot be created. -/
def noMeshEnv : Env := { sampleEnv with beatstack_create := fun _ _ => 0 }

/-- The sample environment with a layer that rejects the start request. -/
def rejectingEnv : Env := { sampleEnv with comms_start := fun _ => -1 }

/-! ## Lemmas -/

theorem main_loop_of_halted (c : Consts) (env : Env) (fuel n : Nat)
    (h : (bootstrap c env fuel).ending = Ending.halted) :
    main_loop c env fuel n =
      ⟨(bootstrap c env fuel).state, beforeBootstrap c env ++ (bootstrap c env fuel).trace,
        Fate.halted⟩ := by
  unfold bootstrap resolvedIdentity at h
  simp only [main_loop, h, bootstrap, beforeBootstrap, resolvedIdentity]

theorem main_loop_of_waiting (c : Consts) (env : Env) (fuel n : Nat)
    (h : (bootstrap c env fuel).ending = Ending.waiting) :
    main_loop c env fuel n =
      ⟨(bootstrap c env fuel).state, beforeBootstrap c env ++ (bootstrap c env fuel).trace,
        Fate.waiting⟩ := by
  unfold bootstrap resolvedIdentity at h
  simp only [main_loop, h, bootstrap, beforeBootstrap, resolvedIdentity]

theorem main_loop_of_null (c : Consts) (env : Env) (fuel n : Nat)
    (h : (bootstrap c env fuel).ending = Ending.returned NULL) :
    main_loop c env fuel n =
      ⟨(bootstrap c env fuel).state,
        beforeBootstrap c env ++ (bootstrap c env fuel).trace ++
          [Event.log LogLevel.err "radio" []],
        Fate.halted⟩ := by
  unfold bootstrap resolvedIdentity at h
  simp only [main_loop, h, bootstrap, beforeBootstrap, resolvedIdentity, if_true]

theorem main_loop_of_started (c : Consts) (env : Env) (fuel n : Nat) (radio : Ptr)
    (h : (bootstrap c env fuel).ending = Ending.returned radio) (hr : NULL ≠ radio) :
    main_loop c env fuel n =
      ⟨(bootstrap c env fuel).state,
        beforeBootstrap c env ++ (bootstrap c env fuel).trace ++
          afterBootstrap env (consumerLayer c (bootstrap c env fuel).state radio) ++
          heartbeat env n 0,
        Fate.heartbeat⟩ := by
  unfold bootstrap resolvedIdentity at h
  simp only [main_loop, h, bootstrap, beforeBootstrap, resolvedIdentity, if_neg hr,
    afterBootstrap, consumerLayer]
  by_cases ha : 0 = env.announcement_app_init
      (if c.INCLUDE_BEATSTACK = true then
        (radio_setup c env fuel (main_loop_identity c env State.boot).2.1
          (main_loop_identity c env State.boot).1
          (main_loop_identity c env State.boot).2.1.g_eui).state.m_beat_comm
      else radio) DEVICE_ANNOUNCEMENT_PERIOD_S
  · simp [ha]
  · simp [ha]

theorem radio_setup_of_null (c : Consts) (env : Env) (fuel : Nat) (st : State)
    (node_addr : Nat) (eui : List Nat) (h : NULL = radioLayer c env node_addr) :
    radio_setup c env fuel st node_addr eui =
      ⟨st, [Event.radio_init c.DEFAULT_RADIO_CHANNEL c.DEFAULT_PAN_ID node_addr NULL],
        Ending.returned NULL⟩ := by
  unfold radioLayer at h
  simp only [radio_setup, ← h, if_true]

theorem radio_setup_of_attach_failed (c : Consts) (env : Env) (fuel : Nat) (st : State)
    (node_addr : Nat) (eui : List Nat) (hm : c.INCLUDE_BEATSTACK = true)
    (hr : NULL ≠ radioLayer c env node_addr)
    (hb : NULL = env.beatstack_create node_addr (radioLayer c env node_addr)) :
    radio_setup c env fuel st node_addr eui =
      ⟨{ st with m_beat_comm := NULL },
        [Event.radio_init c.DEFAULT_RADIO_CHANNEL c.DEFAULT_PAN_ID node_addr
            (radioLayer c env node_addr),
          Event.eui64_set_radio (radioLayer c env node_addr) eui,
          Event.log LogLevel.info "Starting multi-hop" [],
          Event.beatstack_create node_addr (radioLayer c env node_addr) NULL,
          Event.log LogLevel.err "bs start" []],
        Ending.halted⟩ := by
  unfold radioLayer at hr hb
  simp [radio_setup, radioLayer, hm, if_neg hr, ← hb]

theorem radio_setup_of_attached (c : Consts) (env : Env) (fuel : Nat) (st : State)
    (node_addr : Nat) (eui : List Nat)
    (hr : NULL ≠ radioLayer c env node_addr) (hb : NULL ≠ activeLayer c env node_addr) :
    radio_setup c env fuel st node_addr eui =
      if c.COMMS_SUCCESS ≠ env.comms_start (activeLayer c env node_addr) then
        ⟨attachState c env st node_addr,
          attachTrace c env node_addr eui ++
            [Event.comms_am_addrdisco_init (activeLayer c env node_addr),
              Event.comms_start (activeLayer c env node_addr)
                (env.comms_start (activeLayer c env node_addr))],
          Ending.returned NULL⟩
      else if (waitStarted c env (activeLayer c env node_addr) fuel 0).2 then
        ⟨attachState c env st node_addr,
          attachTrace c env node_addr eui ++
            [Event.comms_am_addrdisco_init (activeLayer c env node_addr),
              Event.comms_start (activeLayer c env node_addr)
                (env.comms_start (activeLayer c env node_addr))] ++
            (waitStarted c env (activeLayer c env node_addr) fuel 0).1 ++
            [Event.log LogLevel.debug "radio rdy" []],
          Ending.returned (radioLayer c env node_addr)⟩
      else
        ⟨attachState c env st node_addr,
          attachTrace c env node_addr eui ++
            [Event.comms_am_addrdisco_init (activeLayer c env node_addr),
              Event.comms_start (activeLayer c env node_addr)
                (env.comms_start (activeLayer c env node_addr))] ++
            (waitStarted c env (activeLayer c env node_addr) fuel 0).1,
          Ending.waiting⟩ := by
  cases hm : c.INCLUDE_BEATSTACK
  · simp only [activeLayer, hm] at hb
    unfold radioLayer at hr hb
    simp only [radio_setup, radioLayer, activeLayer, attachState, attachTrace, hm, if_neg hr]
    simp
  · have hb2 : ¬ NULL = env.beatstack_create node_addr
        (env.radio_init c.DEFAULT_RADIO_CHANNEL c.DEFAULT_PAN_ID node_addr) := by
      simpa [activeLayer, hm, radioLayer] using hb
    unfold radioLayer at hr
    simp only [radio_setup, radioLayer, activeLayer, attachState, attachTrace, hm, if_neg hr]
    simp [if_neg hb2]

theorem radio_setup_g_eui (c : Consts) (env : Env) (fuel : Nat) (st : State)
    (node_addr : Nat) (eui : List Nat) :
    (radio_setup c env fuel st node_addr eui).state.g_eui = st.g_eui := by
  by_cases hr : NULL = radioLayer c env node_addr
  · rw [radio_setup_of_null c env fuel st node_addr eui hr]
  · by_cases hb : NULL = activeLayer c env node_addr
    · cases hm : c.INCLUDE_BEATSTACK
      · simp [activeLayer, hm] at hb
        exact absurd hb hr
      · simp only [activeLayer, hm, if_true] at hb
        rw [radio_setup_of_attach_failed c env fuel st node_addr eui hm hr hb]
    · rw [radio_setup_of_attached c env fuel st node_addr eui hr hb]
      have hs : (attachState c env st node_addr).g_eui = st.g_eui := by
        unfold attachState
        split <;> rfl
      split
      · exact hs
      · split <;> exact hs

theorem waitStarted_done (c : Consts) (env : Env) (comms : Ptr) (fuel : Nat) :
    ∀ i, (waitStarted c env comms fuel i).2 = true →
      ∃ mid, (waitStarted c env comms fuel i).1 =
        mid ++ [Event.comms_status comms c.COMMS_STARTED] := by
  induction fuel with
  | zero => intro i h; simp [waitStarted] at h
  | succ fuel ih =>
    intro i h
    by_cases hs : c.COMMS_STARTED = env.comms_status i comms
    · refine ⟨[], ?_⟩
      simp [waitStarted, hs]
    · simp only [waitStarted, ne_eq, hs, not_false_eq_true, if_true] at h ⊢
      obtain ⟨mid, hmid⟩ := ih (i + 1) h
      refine ⟨Event.comms_status comms (env.comms_status i comms) :: Event.osDelay 1 :: mid, ?_⟩
      simp [hmid]

theorem waitStarted_events (c : Consts) (env : Env) (comms : Ptr) (fuel : Nat) :
    ∀ i, ∀ e ∈ (waitStarted c env comms fuel i).1,
      e = Event.osDelay 1 ∨ ∃ s, e = Event.comms_status comms s := by
  induction fuel with
  | zero => intro i e h; simp [waitStarted] at h
  | succ fuel ih =>
    intro i e h
    by_cases hs : c.COMMS_STARTED = env.comms_status i comms
    · simp [waitStarted, hs] at h
      exact Or.inr ⟨_, h⟩
    · simp only [waitStarted, ne_eq, hs, not_false_eq_true, if_true, List.mem_cons] at h
      rcases h with h | h | h
      · exact Or.inr ⟨_, h⟩
      · exact Or.inl h
      · exact ih (i + 1) e h

theorem waitStarted_exact (c : Consts) (env : Env) (comms : Ptr) (k : Nat) :
    ∀ fuel i, k < fuel → (∀ j, j < k → c.COMMS_STARTED ≠ env.comms_status (i + j) comms) →
      env.comms_status (i + k) comms = c.COMMS_STARTED →
      waitStarted c env comms fuel i =
        (failedPolls env comms k i ++ [Event.comms_status comms c.COMMS_STARTED], true) := by
  induction k with
  | zero =>
    intro fuel i hf _ hk
    obtain ⟨f, rfl⟩ : ∃ f, fuel = f + 1 := ⟨fuel - 1, by omega⟩
    simp at hk
    simp [waitStarted, failedPolls, hk]
  | succ k ih =>
    intro fuel i hf hn hk
    obtain ⟨f, rfl⟩ : ∃ f, fuel = f + 1 := ⟨fuel - 1, by omega⟩
    have h0 : c.COMMS_STARTED ≠ env.comms_status i comms := by
      simpa using hn 0 (by omega)
    have hrec := ih f (i + 1) (by omega)
      (fun j hj => by
        have := hn (j + 1) (by omega)
        rwa [show i + (j + 1) = i + 1 + j by omega] at this)
      (by rwa [show i + (k + 1) = i + 1 + k by omega] at hk)
    simp only [waitStarted, ne_eq, h0, not_false_eq_true, if_true, hrec, failedPolls,
      List.cons_append]

theorem failedPolls_polls (env : Env) (comms : Ptr) (k : Nat) :
    ∀ i, (failedPolls env comms k i).countP Event.isPoll = k := by
  induction k with
  | zero => intro i; rfl
  | succ k ih =>
    intro i
    simp [failedPolls, Event.isPoll, ih (i + 1)]

theorem failedPolls_delays (env : Env) (comms : Ptr) (k : Nat) :
    ∀ i, (failedPolls env comms k i).countP (fun e => e == Event.osDelay 1) = k := by
  induction k with
  | zero => intro i; rfl
  | succ k ih =>
    intro i
    simp [failedPolls, ih (i + 1)]

theorem heartbeat_events (env : Env) (n : Nat) :
    ∀ i, ∀ e ∈ heartbeat env n i,
      (∃ up, e = Event.osCounterGetSecond up) ∨
        (∃ a, e = Event.log LogLevel.info "uptime: %u" a) ∨ e = Event.osDelay 60000 := by
  induction n with
  | zero => intro i e h; simp [heartbeat] at h
  | succ n ih =>
    intro i e h
    simp only [heartbeat, List.mem_cons] at h
    rcases h with h | h | h | h
    · exact Or.inl ⟨_, h⟩
    · exact Or.inr (Or.inl ⟨_, h⟩)
    · exact Or.inr (Or.inr h)
    · exact ih (i + 1) e h

theorem main_loop_state (c : Consts) (env : Env) (fuel n : Nat) :
    (main_loop c env fuel n).state = (bootstrap c env fuel).state := by
  cases h : (bootstrap c env fuel).ending with
  | halted => rw [main_loop_of_halted c env fuel n h]
  | waiting => rw [main_loop_of_waiting c env fuel n h]
  | returned p =>
    by_cases hp : NULL = p
    · subst hp
      rw [main_loop_of_null c env fuel n h]
    · rw [main_loop_of_started c env fuel n p h hp]

theorem main_loop_trace (c : Consts) (env : Env) (fuel n : Nat) :
    ∃ rest, (main_loop c env fuel n).trace =
      beforeBootstrap c env ++ (bootstrap c env fuel).trace ++ rest := by
  cases h : (bootstrap c env fuel).ending with
  | halted => exact ⟨[], by rw [main_loop_of_halted c env fuel n h]; simp⟩
  | waiting => exact ⟨[], by rw [main_loop_of_waiting c env fuel n h]; simp⟩
  | returned p =>
    by_cases hp : NULL = p
    · subst hp
      exact ⟨_, by rw [main_loop_of_null c env fuel n h]⟩
    · exact ⟨afterBootstrap env (consumerLayer c (bootstrap c env fuel).state p) ++
          heartbeat env n 0,
        by rw [main_loop_of_started c env fuel n p h hp]; simp only [List.append_assoc]⟩

theorem radio_setup_first (c : Consts) (env : Env) (fuel : Nat) (st : State)
    (node_addr : Nat) (eui : List Nat) :
    Event.radio_init c.DEFAULT_RADIO_CHANNEL c.DEFAULT_PAN_ID node_addr
        (env.radio_init c.DEFAULT_RADIO_CHANNEL c.DEFAULT_PAN_ID node_addr)
      ∈ (radio_setup c env fuel st node_addr eui).trace := by
  by_cases hr : NULL = radioLayer c env node_addr
  · rw [radio_setup_of_null c env fuel st node_addr eui hr]
    unfold radioLayer at hr
    simp [← hr]
  · by_cases hb : NULL = activeLayer c env node_addr
    · cases hm : c.INCLUDE_BEATSTACK
      · simp [activeLayer, hm] at hb
        exact absurd hb hr
      · simp only [activeLayer, hm, if_true] at hb
        rw [radio_setup_of_attach_failed c env fuel st node_addr eui hm hr hb]
        simp [radioLayer]
    · rw [radio_setup_of_attached c env fuel st node_addr eui hr hb]
      split
      · simp [attachTrace, radioLayer]
      · split <;> simp [attachTrace, radioLayer]

theorem main_loop_radio_init (c : Consts) (env : Env) (fuel n : Nat) :
    Event.radio_init c.DEFAULT_RADIO_CHANNEL c.DEFAULT_PAN_ID (resolvedIdentity c env).1
        (env.radio_init c.DEFAULT_RADIO_CHANNEL c.DEFAULT_PAN_ID (resolvedIdentity c env).1)
      ∈ (main_loop c env fuel n).trace := by
  obtain ⟨rest, h⟩ := main_loop_trace c env fuel n
  rw [h]
  have := radio_setup_first c env fuel (main_loop_identity c env State.boot).2.1
    (resolvedIdentity c env).1 (resolvedIdentity c env).2
  simp only [List.mem_append]
  exact Or.inl (Or.inr this)

theorem resolvedIdentity_fallback (c : Consts) (env : Env)
    (ha : c.DEFAULT_AM_ADDR < 65536) (hsig : c.SIG_GOOD ≠ env.sigInit) :
    resolvedIdentity c env =
      (c.DEFAULT_AM_ADDR,
        [0, 0, 0, 0, 0, 0, c.DEFAULT_AM_ADDR >>> 8, c.DEFAULT_AM_ADDR % 256]) := by
  have h1 : c.DEFAULT_AM_ADDR % 65536 = c.DEFAULT_AM_ADDR := Nat.mod_eq_of_lt ha
  have h2 : (c.DEFAULT_AM_ADDR >>> 8) % 256 = c.DEFAULT_AM_ADDR >>> 8 := by
    rw [Nat.shiftRight_eq_div_pow]
    apply Nat.mod_eq_of_lt
    omega
  simp only [resolvedIdentity, main_loop_identity, if_neg hsig, h1, h2, eui64_set]
  rfl

/-- C1 (fallback identity).  When `sigInit` does not return `SIG_GOOD` and
the default address `DEFAULT_AM_ADDR` is a 16-bit value `a`, the identity
that `main_loop` resolves is the address `a` with the identifier
`[0, 0, 0, 0, 0, 0, a >> 8, a mod 256]`.  It is the same for every environment
without a good signature, so nothing the signature store would return enters
it.  `g_eui` holds that identifier and `radio_init` is called with address
`a`. -/
theorem fallback_identity (c : Consts) (env : Env) (fuel n : Nat)
    (ha : c.DEFAULT_AM_ADDR < 65536) (hsig : c.SIG_GOOD ≠ env.sigInit) :
    resolvedIdentity c env =
        (c.DEFAULT_AM_ADDR,
          [0, 0, 0, 0, 0, 0, c.DEFAULT_AM_ADDR >>> 8, c.DEFAULT_AM_ADDR % 256]) ∧
      (∀ env2 : Env, c.SIG_GOOD ≠ env2.sigInit →
        resolvedIdentity c env2 = resolvedIdentity c env) ∧
      (main_loop c env fuel n).state.g_eui =
        [0, 0, 0, 0, 0, 0, c.DEFAULT_AM_ADDR >>> 8, c.DEFAULT_AM_ADDR % 256] ∧
      Event.radio_init c.DEFAULT_RADIO_CHANNEL c.DEFAULT_PAN_ID c.DEFAULT_AM_ADDR
          (env.radio_init c.DEFAULT_RADIO_CHANNEL c.DEFAULT_PAN_ID c.DEFAULT_AM_ADDR)
        ∈ (main_loop c env fuel n).trace := by
  have hid := resolvedIdentity_fallback c env ha hsig
  refine ⟨hid, ?_, ?_, ?_⟩
  · intro env2 h2
    rw [hid, resolvedIdentity_fallback c env2 ha h2]
  · rw [main_loop_state, bootstrap, radio_setup_g_eui]
    have := congrArg Prod.snd hid
    simpa [resolvedIdentity] using this
  · have := main_loop_radio_init c env fuel n
    rwa [hid] at this

theorem resolvedIdentity_valid (c : Consts) (env : Env)
    (hsig : c.SIG_GOOD = env.sigInit) (hid : env.sigGetNodeId < 65536) :
    resolvedIdentity c env = (env.sigGetNodeId, env.sigGetEui64) := by
  simp only [resolvedIdentity, main_loop_identity, if_pos hsig, Nat.mod_eq_of_lt hid]

/-- C2 (valid-signature identity).  When `sigInit` returns `SIG_GOOD` (and the
node id is a 16-bit value), the identity that `main_loop` resolves is exactly
the result of `sigGetNodeId` with the bytes written by `sigGetEui64`.  Any
constants and any environment with a good signature and the same node id and
EUI bytes resolve to the same identity, so neither the default address nor
anything else enters it.  `g_eui` holds those bytes and `radio_init` is called
with that node id. -/
theorem valid_signature_identity (c : Consts) (env : Env) (fuel n : Nat)
    (hsig : c.SIG_GOOD = env.sigInit) (hid : env.sigGetNodeId < 65536) :
    resolvedIdentity c env = (env.sigGetNodeId, env.sigGetEui64) ∧
      (∀ (c2 : Consts) (env2 : Env), c2.SIG_GOOD = env2.sigInit →
        env2.sigGetNodeId = env.sigGetNodeId → env2.sigGetEui64 = env.sigGetEui64 →
        resolvedIdentity c2 env2 = resolvedIdentity c env) ∧
      (main_loop c env fuel n).state.g_eui = env.sigGetEui64 ∧
      Event.radio_init c.DEFAULT_RADIO_CHANNEL c.DEFAULT_PAN_ID env.sigGetNodeId
          (env.radio_init c.DEFAULT_RADIO_CHANNEL c.DEFAULT_PAN_ID env.sigGetNodeId)
        ∈ (main_loop c env fuel n).trace := by
  have h := resolvedIdentity_valid c env hsig hid
  refine ⟨h, ?_, ?_, ?_⟩
  · intro c2 env2 hs2 hn he
    rw [h, resolvedIdentity_valid c2 env2 hs2 (by rw [hn]; exact hid), hn, he]
  · rw [main_loop_state, bootstrap, radio_setup_g_eui]
    have := congrArg Prod.snd h
    simpa [resolvedIdentity] using this
  · have := main_loop_radio_init c env fuel n
    rwa [h] at this

theorem beforeBootstrap_stage (c : Consts) (env : Env) :
    ∀ e ∈ beforeBootstrap c env, e.isIdentityStage = true := by
  intro e he
  unfold beforeBootstrap main_loop_identity at he
  by_cases hsig : c.SIG_GOOD = env.sigInit
  · simp only [if_pos hsig, List.mem_append, List.mem_cons, List.mem_singleton,
      List.not_mem_nil, or_false] at he
    rcases he with ((he | he) | he | he | he) | he <;> subst he <;> rfl
  · simp only [if_neg hsig, List.mem_append, List.mem_cons, List.mem_singleton,
      List.not_mem_nil, or_false] at he
    rcases he with ((he | he) | he | he) | he <;> subst he <;> rfl

theorem attachTrace_stage (c : Consts) (env : Env) (node_addr : Nat) (eui : List Nat) :
    ∀ e ∈ attachTrace c env node_addr eui,
      e.isBootstrapStage = true ∧ e.isErr = false ∧ e.isPoll = false ∧ e.isDelay = false := by
  intro e he
  unfold attachTrace at he
  cases hm : c.INCLUDE_BEATSTACK
  · simp [hm] at he
    rcases he with he | he | he <;> subst he <;> simp [Event.isBootstrapStage, Event.isErr,
      Event.isPoll, Event.isDelay]
  · simp [hm] at he
    rcases he with he | he | he | he <;> subst he <;> simp [Event.isBootstrapStage, Event.isErr,
      Event.isPoll, Event.isDelay]

theorem waitStarted_stage (c : Consts) (env : Env) (comms : Ptr) (fuel i : Nat) :
    ∀ e ∈ (waitStarted c env comms fuel i).1, e.isBootstrapStage = true ∧ e.isErr = false := by
  intro e he
  rcases waitStarted_events c env comms fuel i e he with h | ⟨s, h⟩ <;> subst h <;>
    simp [Event.isBootstrapStage, Event.isErr]

theorem radio_setup_stage (c : Consts) (env : Env) (fuel : Nat) (st : State)
    (node_addr : Nat) (eui : List Nat) :
    ∀ e ∈ (radio_setup c env fuel st node_addr eui).trace, e.isBootstrapStage = true := by
  intro e
  by_cases hr : NULL = radioLayer c env node_addr
  · rw [radio_setup_of_null c env fuel st node_addr eui hr]
    intro he
    simp at he
    subst he
    rfl
  · by_cases hb : NULL = activeLayer c env node_addr
    · cases hm : c.INCLUDE_BEATSTACK
      · simp [activeLayer, hm] at hb
        exact absurd hb hr
      · simp only [activeLayer, hm, if_true] at hb
        rw [radio_setup_of_attach_failed c env fuel st node_addr eui hm hr hb]
        intro he
        simp at he
        rcases he with he | he | he | he | he <;> subst he <;> rfl
    · rw [radio_setup_of_attached c env fuel st node_addr eui hr hb]
      have ha := attachTrace_stage c env node_addr eui e
      have hw := waitStarted_stage c env (activeLayer c env node_addr) fuel 0 e
      split
      · intro he
        simp only [List.mem_append, List.mem_cons, List.mem_singleton, List.not_mem_nil,
          or_false] at he
        rcases he with he | he | he
        · exact (ha he).1
        · subst he; rfl
        · subst he; rfl
      · split
        · intro he
          simp only [List.mem_append, List.mem_cons, List.mem_singleton, List.not_mem_nil,
            or_false] at he
          rcases he with ((he | he | he) | he) | he
          · exact (ha he).1
          · subst he; rfl
          · subst he; rfl
          · exact (hw he).1
          · subst he; rfl
        · intro he
          simp only [List.mem_append, List.mem_cons, List.mem_singleton, List.not_mem_nil,
            or_false] at he
          rcases he with (he | he | he) | he
          · exact (ha he).1
          · subst he; rfl
          · subst he; rfl
          · exact (hw he).1

theorem radio_setup_err (c : Consts) (env : Env) (fuel : Nat) (st : State)
    (node_addr : Nat) (eui : List Nat)
    (h : (radio_setup c env fuel st node_addr eui).ending ≠ Ending.halted) :
    ∀ e ∈ (radio_setup c env fuel st node_addr eui).trace, e.isErr = false := by
  intro e
  by_cases hr : NULL = radioLayer c env node_addr
  · rw [radio_setup_of_null c env fuel st node_addr eui hr]
    intro he
    simp at he
    subst he
    rfl
  · by_cases hb : NULL = activeLayer c env node_addr
    · cases hm : c.INCLUDE_BEATSTACK
      · simp [activeLayer, hm] at hb
        exact absurd hb hr
      · simp only [activeLayer, hm, if_true] at hb
        rw [radio_setup_of_attach_failed c env fuel st node_addr eui hm hr hb] at h
        exact absurd rfl h
    · rw [radio_setup_of_attached c env fuel st node_addr eui hr hb]
      have ha := attachTrace_stage c env node_addr eui e
      have hw := waitStarted_stage c env (activeLayer c env node_addr) fuel 0 e
      split
      · intro he
        simp only [List.mem_append, List.mem_cons, List.mem_singleton, List.not_mem_nil,
          or_false] at he
        rcases he with he | he | he
        · exact (ha he).2.1
        · subst he; rfl
        · subst he; rfl
      · split
        · intro he
          simp only [List.mem_append, List.mem_cons, List.mem_singleton, List.not_mem_nil,
            or_false] at he
          rcases he with ((he | he | he) | he) | he
          · exact (ha he).2.1
          · subst he; rfl
          · subst he; rfl
          · exact (hw he).2
          · subst he; rfl
        · intro he
          simp only [List.mem_append, List.mem_cons, List.mem_singleton, List.not_mem_nil,
            or_false] at he
          rcases he with (he | he | he) | he
          · exact (ha he).2.1
          · subst he; rfl
          · subst he; rfl
          · exact (hw he).2

theorem waitStarted_announcement (c : Consts) (env : Env) (ann : Ptr → Nat → Int)
    (comms : Ptr) (fuel : Nat) :
    ∀ i, waitStarted c { env with announcement_app_init := ann } comms fuel i =
      waitStarted c env comms fuel i := by
  induction fuel with
  | zero => intro i; rfl
  | succ fuel ih =>
    intro i
    simp only [waitStarted, ih (i + 1)]

theorem radio_setup_announcement (c : Consts) (env : Env) (ann : Ptr → Nat → Int)
    (fuel : Nat) (st : State) (node_addr : Nat) (eui : List Nat) :
    radio_setup c { env with announcement_app_init := ann } fuel st node_addr eui =
      radio_setup c env fuel st node_addr eui := by
  simp only [radio_setup, waitStarted_announcement]

theorem bootstrap_announcement (c : Consts) (env : Env) (ann : Ptr → Nat → Int) (fuel : Nat) :
    bootstrap c { env with announcement_app_init := ann } fuel = bootstrap c env fuel := by
  unfold bootstrap resolvedIdentity
  rw [radio_setup_announcement]
  rfl

theorem heartbeat_announcement (env : Env) (ann : Ptr → Nat → Int) (n : Nat) :
    ∀ i, heartbeat { env with announcement_app_init := ann } n i = heartbeat env n i := by
  induction n with
  | zero => intro i; rfl
  | succ n ih =>
    intro i
    simp only [heartbeat, ih (i + 1)]

theorem heartbeat_counts (env : Env) (n : Nat) :
    ∀ i, (heartbeat env n i).countP Event.isPoll = 0 ∧
      (heartbeat env n i).countP Event.isDelay = n ∧
      (heartbeat env n i).countP (fun e => e == Event.osDelay 1) = 0 ∧
      (heartbeat env n i).countP Event.isErr = 0 ∧
      (heartbeat env n i).countP Event.isAnnouncementInit = 0 ∧
      (heartbeat env n i).countP Event.isMiddlewareInit = 0 ∧
      (heartbeat env n i).countP Event.isExampleInit = 0 := by
  induction n with
  | zero => intro i; simp [heartbeat]
  | succ n ih =>
    intro i
    obtain ⟨h1, h2, h3, h4, h5, h6, h7⟩ := ih (i + 1)
    simp [heartbeat, Event.isPoll, Event.isDelay, Event.isErr, Event.isAnnouncementInit,
      Event.isMiddlewareInit, Event.isExampleInit, h1, h2, h3, h4, h5, h6, h7]

/-- C3 (no success without STARTED).  In both builds, whenever `radio_setup`
returns a non-NULL handle, its trace contains a `comms_start` that returned
`COMMS_SUCCESS` and, later, a `comms_status` poll of the same layer that
returned `COMMS_STARTED`. -/
theorem success_only_after_started (c : Consts) (env : Env) (fuel : Nat) (st : State)
    (node_addr : Nat) (eui : List Nat) (p : Ptr)
    (h : (radio_setup c env fuel st node_addr eui).ending = Ending.returned p)
    (hp : NULL ≠ p) :
    ∃ comms pre mid post, (radio_setup c env fuel st node_addr eui).trace =
      pre ++ [Event.comms_start comms c.COMMS_SUCCESS] ++ mid ++
        [Event.comms_status comms c.COMMS_STARTED] ++ post := by
  by_cases hr : NULL = radioLayer c env node_addr
  · rw [radio_setup_of_null c env fuel st node_addr eui hr] at h
    simp only [Ending.returned.injEq] at h
    exact absurd h hp
  · by_cases hb : NULL = activeLayer c env node_addr
    · cases hm : c.INCLUDE_BEATSTACK
      · simp [activeLayer, hm] at hb
        exact absurd hb hr
      · simp only [activeLayer, hm, if_true] at hb
        rw [radio_setup_of_attach_failed c env fuel st node_addr eui hm hr hb] at h
        simp at h
    · rw [radio_setup_of_attached c env fuel st node_addr eui hr hb] at h ⊢
      by_cases hs : c.COMMS_SUCCESS ≠ env.comms_start (activeLayer c env node_addr)
      · rw [if_pos hs] at h
        simp only [Ending.returned.injEq] at h
        exact absurd h hp
      · rw [if_neg hs] at h ⊢
        by_cases hw : (waitStarted c env (activeLayer c env node_addr) fuel 0).2 = true
        · rw [if_pos hw]
          obtain ⟨mid, hmid⟩ := waitStarted_done c env (activeLayer c env node_addr) fuel 0 hw
          have hs2 : env.comms_start (activeLayer c env node_addr) = c.COMMS_SUCCESS := by
            simp only [ne_eq, not_not] at hs
            exact hs.symm
          refine ⟨activeLayer c env node_addr,
            attachTrace c env node_addr eui ++
              [Event.comms_am_addrdisco_init (activeLayer c env node_addr)],
            mid, [Event.log LogLevel.debug "radio rdy" []], ?_⟩
          simp only [hmid, hs2, List.append_assoc, List.cons_append, List.nil_append]
        · rw [if_neg hw] at h
          simp at h

/-- C4 (radio init failure has no side effects).  Whenever `radio_init` returns
NULL, `radio_setup` returns NULL, leaves the globals as they were, and its
whole trace is the one call of `radio_init`: no `eui64_set`, no mesh attach,
no address-discovery init, no `comms_start`, no poll, no delay, for every
amount of fuel and in both builds. -/
theorem radio_init_failed_no_side_effects (c : Consts) (env : Env) (fuel : Nat) (st : State)
    (node_addr : Nat) (eui : List Nat)
    (h : env.radio_init c.DEFAULT_RADIO_CHANNEL c.DEFAULT_PAN_ID node_addr = NULL) :
    radio_setup c env fuel st node_addr eui =
      ⟨st, [Event.radio_init c.DEFAULT_RADIO_CHANNEL c.DEFAULT_PAN_ID node_addr NULL],
        Ending.returned NULL⟩ :=
  radio_setup_of_null c env fuel st node_addr eui (by rw [radioLayer, h])

/-- C5 (start rejected without polling).  First part: when `radio_init` and,
in the multi-hop build, the mesh attach succeed but `comms_start` on the
active layer returns anything other than `COMMS_SUCCESS`, `radio_setup`
returns NULL and its trace has no status poll and no delay.  Second part:
whenever `radio_setup` is in the polling wait (the fuel ran out there, or its
trace has a poll or a delay), the radio and the active layer are non-NULL and
`comms_start` on the active layer returned `COMMS_SUCCESS`. -/
theorem start_rejected_without_polling (c : Consts) (env : Env) (fuel : Nat) (st : State)
    (node_addr : Nat) (eui : List Nat) :
    (NULL ≠ radioLayer c env node_addr → NULL ≠ activeLayer c env node_addr →
      c.COMMS_SUCCESS ≠ env.comms_start (activeLayer c env node_addr) →
      (radio_setup c env fuel st node_addr eui).ending = Ending.returned NULL ∧
        (radio_setup c env fuel st node_addr eui).trace.countP Event.isPoll = 0 ∧
        (radio_setup c env fuel st node_addr eui).trace.countP Event.isDelay = 0) ∧
    ((radio_setup c env fuel st node_addr eui).ending = Ending.waiting ∨
        (radio_setup c env fuel st node_addr eui).trace.countP Event.isPoll ≠ 0 ∨
        (radio_setup c env fuel st node_addr eui).trace.countP Event.isDelay ≠ 0 →
      NULL ≠ radioLayer c env node_addr ∧ NULL ≠ activeLayer c env node_addr ∧
        env.comms_start (activeLayer c env node_addr) = c.COMMS_SUCCESS ∧
        Event.comms_start (activeLayer c env node_addr) c.COMMS_SUCCESS ∈
          (radio_setup c env fuel st node_addr eui).trace) := by
  have hat : (attachTrace c env node_addr eui).countP Event.isPoll = 0 ∧
      (attachTrace c env node_addr eui).countP Event.isDelay = 0 := by
    constructor
    · rw [List.countP_eq_zero]
      intro e he
      simp [(attachTrace_stage c env node_addr eui e he).2.2.1]
    · rw [List.countP_eq_zero]
      intro e he
      simp [(attachTrace_stage c env node_addr eui e he).2.2.2]
  constructor
  · intro hr hb hs
    rw [radio_setup_of_attached c env fuel st node_addr eui hr hb, if_pos hs]
    simp [List.countP_append, hat.1, hat.2, Event.isPoll, Event.isDelay]
  · by_cases hr : NULL = radioLayer c env node_addr
    · rw [radio_setup_of_null c env fuel st node_addr eui hr]
      simp [Event.isPoll, Event.isDelay]
    · by_cases hb : NULL = activeLayer c env node_addr
      · cases hm : c.INCLUDE_BEATSTACK
        · simp [activeLayer, hm] at hb
          exact absurd hb hr
        · have hb2 := hb
          simp only [activeLayer, hm, if_true] at hb2
          rw [radio_setup_of_attach_failed c env fuel st node_addr eui hm hr hb2]
          simp [Event.isPoll, Event.isDelay]
      · rw [radio_setup_of_attached c env fuel st node_addr eui hr hb]
        by_cases hs : c.COMMS_SUCCESS ≠ env.comms_start (activeLayer c env node_addr)
        · rw [if_pos hs]
          simp [List.countP_append, hat.1, hat.2, Event.isPoll, Event.isDelay]
        · rw [if_neg hs]
          have hs2 : env.comms_start (activeLayer c env node_addr) = c.COMMS_SUCCESS := by
            simp only [ne_eq, not_not] at hs
            exact hs.symm
          intro _
          refine ⟨hr, hb, hs2, ?_⟩
          split <;> simp [hs2]

theorem countP_eq_zero_of_stage (p q : Event → Bool) (l : List Event)
    (hl : ∀ e ∈ l, q e = true) (hpq : ∀ e, q e = true → p e = false) :
    l.countP p = 0 := by
  rw [List.countP_eq_zero]
  intro e he
  simp [hpq e (hl e he)]

theorem identityStage_excludes (e : Event) (h : e.isIdentityStage = true) :
    e.isPoll = false ∧ e.isDelay = false ∧ (e == Event.osDelay 1) = false ∧
      e.isErr = false ∧ e.isAnnouncementInit = false ∧ e.isMiddlewareInit = false ∧
      e.isExampleInit = false ∧ e.isUptime = false := by
  cases e with
  | logb lvl fmt buf args =>
    cases lvl <;> simp [Event.isIdentityStage] at h
    simp [Event.isPoll, Event.isDelay, Event.isErr, Event.isAnnouncementInit,
      Event.isMiddlewareInit, Event.isExampleInit, Event.isUptime]
  | _ =>
    first
      | (simp [Event.isIdentityStage] at h; done)
      | simp [Event.isPoll, Event.isDelay, Event.isErr, Event.isAnnouncementInit,
          Event.isMiddlewareInit, Event.isExampleInit, Event.isUptime]

theorem bootstrapStage_excludes (e : Event) (h : e.isBootstrapStage = true) :
    e.isAnnouncementInit = false ∧ e.isMiddlewareInit = false ∧
      e.isExampleInit = false ∧ e.isUptime = false := by
  cases e <;> first
    | (simp [Event.isBootstrapStage] at h; done)
    | simp [Event.isAnnouncementInit, Event.isMiddlewareInit, Event.isExampleInit,
        Event.isUptime]

theorem failedPolls_counts (env : Env) (comms : Ptr) (k : Nat) :
    ∀ i, (failedPolls env comms k i).countP Event.isDelay = k ∧
      (failedPolls env comms k i).countP Event.isErr = 0 ∧
      (failedPolls env comms k i).countP Event.isAnnouncementInit = 0 ∧
      (failedPolls env comms k i).countP Event.isMiddlewareInit = 0 ∧
      (failedPolls env comms k i).countP Event.isExampleInit = 0 := by
  induction k with
  | zero => intro i; simp [failedPolls]
  | succ k ih =>
    intro i
    obtain ⟨h1, h2, h3, h4, h5⟩ := ih (i + 1)
    simp [failedPolls, Event.isDelay, Event.isErr, Event.isAnnouncementInit,
      Event.isMiddlewareInit, Event.isExampleInit, h1, h2, h3, h4, h5]

/-- C6, counterexample.  In the multi-hop build with the radio at layer 7 and
the mesh stack at layer 9, address discovery, `comms_start` and the status
polls are made on layer 9, while `radio_setup` returns layer 7: the returned
handle is not the active layer. -/
theorem returned_handle_is_not_mesh_layer :
    (radio_setup (sampleConsts true) sampleEnv 3 State.boot 1 [0, 0, 0, 0, 0, 0, 0, 1]).ending
        = Ending.returned 7 ∧
      sampleEnv.beatstack_create 1 7 = 9 ∧
      Event.comms_am_addrdisco_init 9 ∈
        (radio_setup (sampleConsts true) sampleEnv 3 State.boot 1
          [0, 0, 0, 0, 0, 0, 0, 1]).trace ∧
      Event.comms_start 9 0 ∈
        (radio_setup (sampleConsts true) sampleEnv 3 State.boot 1
          [0, 0, 0, 0, 0, 0, 0, 1]).trace ∧
      Event.comms_status 9 1 ∈
        (radio_setup (sampleConsts true) sampleEnv 3 State.boot 1
          [0, 0, 0, 0, 0, 0, 0, 1]).trace ∧
      ¬ (radio_setup (sampleConsts true) sampleEnv 3 State.boot 1
          [0, 0, 0, 0, 0, 0, 0, 1]).ending
        = Ending.returned (activeLayer (sampleConsts true) sampleEnv 1) := by
  decide

theorem radio_setup_success (c : Consts) (env : Env) (fuel : Nat) (st : State)
    (node_addr : Nat) (eui : List Nat) (p : Ptr)
    (h : (radio_setup c env fuel st node_addr eui).ending = Ending.returned p)
    (hp : NULL ≠ p) :
    p = env.radio_init c.DEFAULT_RADIO_CHANNEL c.DEFAULT_PAN_ID node_addr ∧
      NULL ≠ activeLayer c env node_addr ∧
      (c.INCLUDE_BEATSTACK = false → activeLayer c env node_addr = p) ∧
      (c.INCLUDE_BEATSTACK = true →
        activeLayer c env node_addr = env.beatstack_create node_addr p ∧
        (radio_setup c env fuel st node_addr eui).state.m_beat_comm =
          env.beatstack_create node_addr p) ∧
      consumerLayer c (radio_setup c env fuel st node_addr eui).state p =
        activeLayer c env node_addr ∧
      Event.comms_am_addrdisco_init (activeLayer c env node_addr) ∈
        (radio_setup c env fuel st node_addr eui).trace ∧
      Event.comms_start (activeLayer c env node_addr) c.COMMS_SUCCESS ∈
        (radio_setup c env fuel st node_addr eui).trace ∧
      Event.comms_status (activeLayer c env node_addr) c.COMMS_STARTED ∈
        (radio_setup c env fuel st node_addr eui).trace := by
  by_cases hr : NULL = radioLayer c env node_addr
  · rw [radio_setup_of_null c env fuel st node_addr eui hr] at h
    simp only [Ending.returned.injEq] at h
    exact absurd h hp
  · by_cases hb : NULL = activeLayer c env node_addr
    · cases hm : c.INCLUDE_BEATSTACK
      · simp [activeLayer, hm] at hb
        exact absurd hb hr
      · simp only [activeLayer, hm, if_true] at hb
        rw [radio_setup_of_attach_failed c env fuel st node_addr eui hm hr hb] at h
        simp at h
    · rw [radio_setup_of_attached c env fuel st node_addr eui hr hb] at h ⊢
      by_cases hs : c.COMMS_SUCCESS ≠ env.comms_start (activeLayer c env node_addr)
      · rw [if_pos hs] at h
        simp only [Ending.returned.injEq] at h
        exact absurd h hp
      · rw [if_neg hs] at h ⊢
        have hs2 : env.comms_start (activeLayer c env node_addr) = c.COMMS_SUCCESS := by
          simp only [ne_eq, not_not] at hs
          exact hs.symm
        by_cases hw : (waitStarted c env (activeLayer c env node_addr) fuel 0).2 = true
        · rw [if_pos hw] at h ⊢
          simp only [Ending.returned.injEq] at h
          obtain ⟨mid, hmid⟩ := waitStarted_done c env (activeLayer c env node_addr) fuel 0 hw
          have hp2 : p = env.radio_init c.DEFAULT_RADIO_CHANNEL c.DEFAULT_PAN_ID node_addr := by
            rw [← h, radioLayer]
          refine ⟨hp2, hb, ?_, ?_, ?_, ?_, ?_, ?_⟩
          · intro hm
            simp [activeLayer, hm, h]
          · intro hm
            simp [activeLayer, attachState, hm, h]
          · cases hm : c.INCLUDE_BEATSTACK <;>
              simp [consumerLayer, activeLayer, attachState, hm, h]
          · simp
          · simp [hs2]
          · simp [hmid]
        · rw [if_neg hw] at h
          simp at h

/-- C6, amended.  The handle `radio_setup` returns on success is, in both
builds, the handle returned by `radio_init`.  The active layer, the one
address discovery is bound to, `comms_start` is requested on and whose status
is polled as `COMMS_STARTED`, is that same handle in the single-hop build; in
the multi-hop build it is the layer returned by `beatstack_create`, which is
stored in `m_beat_comm`.  When the call of `radio_setup` in `main_loop`
succeeds, `main_loop` goes on with exactly these events: the call of
`announcement_app_init` on the active layer with period 300, its log line,
the middleware version line, `mist_middleware_init` on the active layer,
`mist_example_init`, the uptime loop.  So the announcement service and the
middleware receive the active layer, which in the multi-hop build is the
layer held in `m_beat_comm` and not the handle `radio_setup` returned. -/
theorem success_returns_radio_handle (c : Consts) (env : Env) (fuel : Nat) (st : State)
    (node_addr : Nat) (eui : List Nat) (p : Ptr)
    (h : (radio_setup c env fuel st node_addr eui).ending = Ending.returned p)
    (hp : NULL ≠ p) :
    p = env.radio_init c.DEFAULT_RADIO_CHANNEL c.DEFAULT_PAN_ID node_addr ∧
      NULL ≠ activeLayer c env node_addr ∧
      (c.INCLUDE_BEATSTACK = false → activeLayer c env node_addr = p) ∧
      (c.INCLUDE_BEATSTACK = true →
        activeLayer c env node_addr = env.beatstack_create node_addr p ∧
        (radio_setup c env fuel st node_addr eui).state.m_beat_comm =
          env.beatstack_create node_addr p) ∧
      Event.comms_am_addrdisco_init (activeLayer c env node_addr) ∈
        (radio_setup c env fuel st node_addr eui).trace ∧
      Event.comms_start (activeLayer c env node_addr) c.COMMS_SUCCESS ∈
        (radio_setup c env fuel st node_addr eui).trace ∧
      Event.comms_status (activeLayer c env node_addr) c.COMMS_STARTED ∈
        (radio_setup c env fuel st node_addr eui).trace ∧
      (∀ (n : Nat) (q : Ptr), (bootstrap c env fuel).ending = Ending.returned q → NULL ≠ q →
        (main_loop c env fuel n).fate = Fate.heartbeat ∧
        (main_loop c env fuel n).trace =
          beforeBootstrap c env ++ (bootstrap c env fuel).trace ++
            [Event.announcement_app_init (activeLayer c env (resolvedIdentity c env).1) 300
                (env.announcement_app_init (activeLayer c env (resolvedIdentity c env).1) 300),
              if 0 = env.announcement_app_init
                  (activeLayer c env (resolvedIdentity c env).1) 300 then
                Event.log LogLevel.debug "annc started" []
              else Event.log LogLevel.err "annc" [],
              Event.mist_middleware_version,
              Event.log LogLevel.info "mist middleware %s"
                [LogArg.str env.mist_middleware_version],
              Event.mist_middleware_init (activeLayer c env (resolvedIdentity c env).1),
              Event.mist_example_init] ++
            heartbeat env n 0 ∧
        (c.INCLUDE_BEATSTACK = true →
          (main_loop c env fuel n).state.m_beat_comm =
            activeLayer c env (resolvedIdentity c env).1) ∧
        (c.INCLUDE_BEATSTACK = false → q = activeLayer c env (resolvedIdentity c env).1)) := by
  obtain ⟨h1, h2, h3, h4, _, h6, h7, h8⟩ :=
    radio_setup_success c env fuel st node_addr eui p h hp
  refine ⟨h1, h2, h3, h4, h6, h7, h8, ?_⟩
  intro n q hq hqn
  have hq2 := hq
  unfold bootstrap at hq2
  obtain ⟨_, _, g3, g4, g5, _, _, _⟩ :=
    radio_setup_success c env fuel (main_loop_identity c env State.boot).2.1
      (resolvedIdentity c env).1 (resolvedIdentity c env).2 q hq2 hqn
  have g5b : consumerLayer c (bootstrap c env fuel).state q =
      activeLayer c env (resolvedIdentity c env).1 := g5
  have hm := main_loop_of_started c env fuel n q hq hqn
  rw [g5b] at hm
  refine ⟨by rw [hm], ?_, ?_, ?_⟩
  · rw [hm]
    rfl
  · intro hmh
    rw [main_loop_state]
    have := (g4 hmh)
    rw [this.1]
    exact this.2
  · intro hmh
    exact (g3 hmh).symm

theorem beforeBootstrap_announcement (c : Consts) (env : Env) (ann : Ptr → Nat → Int) :
    beforeBootstrap c { env with announcement_app_init := ann } = beforeBootstrap c env := by
  rfl

theorem boot_counts (c : Consts) (env : Env) (fuel : Nat) :
    (beforeBootstrap c env ++ (bootstrap c env fuel).trace).countP Event.isAnnouncementInit = 0 ∧
    (beforeBootstrap c env ++ (bootstrap c env fuel).trace).countP Event.isMiddlewareInit = 0 ∧
    (beforeBootstrap c env ++ (bootstrap c env fuel).trace).countP Event.isExampleInit = 0 ∧
    (beforeBootstrap c env ++ (bootstrap c env fuel).trace).countP Event.isUptime = 0 := by
  have hb := beforeBootstrap_stage c env
  have hr : ∀ e ∈ (bootstrap c env fuel).trace, e.isBootstrapStage = true :=
    radio_setup_stage c env fuel _ _ _
  simp only [List.countP_append]
  refine ⟨?_, ?_, ?_, ?_⟩
  · rw [countP_eq_zero_of_stage _ _ _ hb (fun e he => (identityStage_excludes e he).2.2.2.2.1),
      countP_eq_zero_of_stage _ _ _ hr (fun e he => (bootstrapStage_excludes e he).1)]
  · rw [countP_eq_zero_of_stage _ _ _ hb (fun e he => (identityStage_excludes e he).2.2.2.2.2.1),
      countP_eq_zero_of_stage _ _ _ hr (fun e he => (bootstrapStage_excludes e he).2.1)]
  · rw [countP_eq_zero_of_stage _ _ _ hb
        (fun e he => (identityStage_excludes e he).2.2.2.2.2.2.1),
      countP_eq_zero_of_stage _ _ _ hr (fun e he => (bootstrapStage_excludes e he).2.2.1)]
  · rw [countP_eq_zero_of_stage _ _ _ hb
        (fun e he => (identityStage_excludes e he).2.2.2.2.2.2.2),
      countP_eq_zero_of_stage _ _ _ hr (fun e he => (bootstrapStage_excludes e he).2.2.2)]

/-- C7 (announcement failure is isolated).  Once `radio_setup` has returned a
non-NULL handle, for every behaviour `ann` of `announcement_app_init`,
`main_loop` reaches the uptime loop, and its trace is the same boot trace,
then the call of `announcement_app_init` with period 300, then one log line
(debug "annc started" for the result 0, error "annc" otherwise), then
`mist_middleware_version`, its log line, `mist_middleware_init`,
`mist_example_init` and the uptime loop.  The announcement service, the
middleware and the example application are each initialised exactly once. -/
theorem announcement_failure_is_isolated (c : Consts) (env : Env) (fuel n : Nat)
    (radio : Ptr) (ann : Ptr → Nat → Int)
    (h : (bootstrap c env fuel).ending = Ending.returned radio) (hr : NULL ≠ radio) :
    (main_loop c { env with announcement_app_init := ann } fuel n).fate = Fate.heartbeat ∧
      (main_loop c { env with announcement_app_init := ann } fuel n).trace =
        beforeBootstrap c env ++ (bootstrap c env fuel).trace ++
          [Event.announcement_app_init (consumerLayer c (bootstrap c env fuel).state radio) 300
              (ann (consumerLayer c (bootstrap c env fuel).state radio) 300),
            if 0 = ann (consumerLayer c (bootstrap c env fuel).state radio) 300 then
              Event.log LogLevel.debug "annc started" []
            else Event.log LogLevel.err "annc" [],
            Event.mist_middleware_version,
            Event.log LogLevel.info "mist middleware %s" [LogArg.str env.mist_middleware_version],
            Event.mist_middleware_init (consumerLayer c (bootstrap c env fuel).state radio),
            Event.mist_example_init] ++
          heartbeat env n 0 ∧
      (main_loop c { env with announcement_app_init := ann } fuel n).trace.countP
        Event.isAnnouncementInit = 1 ∧
      (main_loop c { env with announcement_app_init := ann } fuel n).trace.countP
        Event.isMiddlewareInit = 1 ∧
      (main_loop c { env with announcement_app_init := ann } fuel n).trace.countP
        Event.isExampleInit = 1 := by
  have hb := bootstrap_announcement c env ann fuel
  have h2 : (bootstrap c { env with announcement_app_init := ann } fuel).ending =
      Ending.returned radio := by rw [hb, h]
  have hm := main_loop_of_started c { env with announcement_app_init := ann } fuel n radio h2 hr
  rw [hb, beforeBootstrap_announcement, heartbeat_announcement] at hm
  have ht : (main_loop c { env with announcement_app_init := ann } fuel n).trace =
      beforeBootstrap c env ++ (bootstrap c env fuel).trace ++
        [Event.announcement_app_init (consumerLayer c (bootstrap c env fuel).state radio) 300
            (ann (consumerLayer c (bootstrap c env fuel).state radio) 300),
          if 0 = ann (consumerLayer c (bootstrap c env fuel).state radio) 300 then
            Event.log LogLevel.debug "annc started" []
          else Event.log LogLevel.err "annc" [],
          Event.mist_middleware_version,
          Event.log LogLevel.info "mist middleware %s" [LogArg.str env.mist_middleware_version],
          Event.mist_middleware_init (consumerLayer c (bootstrap c env fuel).state radio),
          Event.mist_example_init] ++
        heartbeat env n 0 := by
    rw [hm]
    rfl
  obtain ⟨b1, b2, b3, _⟩ := boot_counts c env fuel
  obtain ⟨_, _, _, _, k5, k6, k7⟩ := heartbeat_counts env n 0
  refine ⟨by rw [hm], ht, ?_, ?_, ?_⟩
  · rw [ht, List.countP_append, List.countP_append, b1, k5]
    by_cases ha : 0 = ann (consumerLayer c (bootstrap c env fuel).state radio) 300 <;>
      simp [ha, Event.isAnnouncementInit]
  · rw [ht, List.countP_append, List.countP_append, b2, k6]
    by_cases ha : 0 = ann (consumerLayer c (bootstrap c env fuel).state radio) 300 <;>
      simp [ha, Event.isMiddlewareInit]
  · rw [ht, List.countP_append, List.countP_append, b3, k7]
    by_cases ha : 0 = ann (consumerLayer c (bootstrap c env fuel).state radio) 300 <;>
      simp [ha, Event.isExampleInit]

/-- C8 (bootstrap failure halts).  Whenever the call of `radio_setup` in
`main_loop` returns NULL, `main_loop` appends the one log line
error "radio" and stays in the empty loop.  The whole trace has exactly one
error log line and no call of `announcement_app_init`,
`mist_middleware_init`, `mist_example_init` or `osCounterGetSecond`.  The
NULL comes from `radio_init` returning NULL or from a rejected start
request. -/
theorem bootstrap_failure_halts (c : Consts) (env : Env) (fuel n : Nat)
    (h : (bootstrap c env fuel).ending = Ending.returned NULL) :
    (main_loop c env fuel n).fate = Fate.halted ∧
      (main_loop c env fuel n).trace =
        beforeBootstrap c env ++ (bootstrap c env fuel).trace ++
          [Event.log LogLevel.err "radio" []] ∧
      (main_loop c env fuel n).trace.countP Event.isErr = 1 ∧
      (main_loop c env fuel n).trace.countP Event.isAnnouncementInit = 0 ∧
      (main_loop c env fuel n).trace.countP Event.isMiddlewareInit = 0 ∧
      (main_loop c env fuel n).trace.countP Event.isExampleInit = 0 ∧
      (main_loop c env fuel n).trace.countP Event.isUptime = 0 ∧
      (NULL = radioLayer c env (resolvedIdentity c env).1 ∨
        c.COMMS_SUCCESS ≠ env.comms_start (activeLayer c env (resolvedIdentity c env).1)) := by
  have hm := main_loop_of_null c env fuel n h
  obtain ⟨b1, b2, b3, b4⟩ := boot_counts c env fuel
  have he1 : (beforeBootstrap c env).countP Event.isErr = 0 :=
    countP_eq_zero_of_stage _ _ _ (beforeBootstrap_stage c env)
      (fun e he => (identityStage_excludes e he).2.2.2.1)
  have he2 : (bootstrap c env fuel).trace.countP Event.isErr = 0 := by
    rw [List.countP_eq_zero]
    intro e he
    have := radio_setup_err c env fuel (main_loop_identity c env State.boot).2.1
      (resolvedIdentity c env).1 (resolvedIdentity c env).2
      (by
        have h2 := h
        unfold bootstrap at h2
        rw [h2]
        simp) e he
    simp [this]
  refine ⟨by rw [hm], by rw [hm], ?_, ?_, ?_, ?_, ?_, ?_⟩
  · rw [hm]
    simp only [List.countP_append, he1, he2]
    simp [Event.isErr]
  · rw [hm]
    simp only [List.countP_append _ (beforeBootstrap c env ++ (bootstrap c env fuel).trace), b1]
    simp [Event.isAnnouncementInit]
  · rw [hm]
    simp only [List.countP_append _ (beforeBootstrap c env ++ (bootstrap c env fuel).trace), b2]
    simp [Event.isMiddlewareInit]
  · rw [hm]
    simp only [List.countP_append _ (beforeBootstrap c env ++ (bootstrap c env fuel).trace), b3]
    simp [Event.isExampleInit]
  · rw [hm]
    simp only [List.countP_append _ (beforeBootstrap c env ++ (bootstrap c env fuel).trace), b4]
    simp [Event.isUptime]
  · by_cases hr : NULL = radioLayer c env (resolvedIdentity c env).1
    · exact Or.inl hr
    · right
      by_cases hb : NULL = activeLayer c env (resolvedIdentity c env).1
      · cases hmh : c.INCLUDE_BEATSTACK
        · simp [activeLayer, hmh] at hb
          exact absurd hb hr
        · simp only [activeLayer, hmh, if_true] at hb
          unfold bootstrap at h
          rw [radio_setup_of_attach_failed c env fuel _ _ _ hmh hr hb] at h
          simp at h
      · unfold bootstrap at h
        rw [radio_setup_of_attached c env fuel _ _ _ hr hb] at h
        by_cases hs : c.COMMS_SUCCESS ≠ env.comms_start (activeLayer c env (resolvedIdentity c env).1)
        · exact hs
        · rw [if_neg hs] at h
          split at h
          · simp only [Ending.returned.injEq] at h
            exact absurd h.symm hr
          · simp at h

/-- C9 (mesh attach failure is fatal on the spot).  In the multi-hop build,
when `radio_init` returns a non-NULL `radio` and `beatstack_create` returns
NULL, `radio_setup` does not return: it ends in the empty loop, for every
amount of fuel.  Its trace is `radio_init`, `eui64_set`, the info line, the
call `beatstack_create(node_addr, radio)` with the address `radio_init` was
given, and the error line "bs start"; nothing follows. -/
theorem stack_attach_failure_is_fatal (c : Consts) (env : Env) (fuel : Nat) (st : State)
    (node_addr : Nat) (eui : List Nat) (radio : Ptr)
    (hm : c.INCLUDE_BEATSTACK = true)
    (hi : env.radio_init c.DEFAULT_RADIO_CHANNEL c.DEFAULT_PAN_ID node_addr = radio)
    (hr : radio ≠ NULL) (hb : env.beatstack_create node_addr radio = NULL) :
    radio_setup c env fuel st node_addr eui =
      ⟨{ st with m_beat_comm := NULL },
        [Event.radio_init c.DEFAULT_RADIO_CHANNEL c.DEFAULT_PAN_ID node_addr radio,
          Event.eui64_set_radio radio eui,
          Event.log LogLevel.info "Starting multi-hop" [],
          Event.beatstack_create node_addr radio NULL,
          Event.log LogLevel.err "bs start" []],
        Ending.halted⟩ := by
  subst hi
  exact radio_setup_of_attach_failed c env fuel st node_addr eui hm (Ne.symm hr)
    (by rw [radioLayer, hb])

/-- C10 (single-hop success path).  Single-hop build, `radio_init` returns a
non-NULL `r`, `comms_start` returns `COMMS_SUCCESS`, the polls number
`0 .. k-1` do not return `COMMS_STARTED`, poll number `k` does, and the fuel
allows more than `k` polls.  Then `main_loop` reaches the uptime loop with
the trace: identity stage, `radio_init`, `eui64_set` of the resolved
identifier on `r`, the info line, address-discovery init on `r`,
`comms_start` on `r`, `k` failed polls each followed by `osDelay(1)`, the
poll that returns `COMMS_STARTED`, "radio rdy",
`announcement_app_init(r, 300)` with its log line, the middleware version
line, `mist_middleware_init(r)`, `mist_example_init`, and the uptime loop.
There are exactly `k + 1` polls and `k` one-tick delays (none for `k = 0`),
each init is called exactly once, and every round of the uptime loop reads
the counter, logs it and calls `osDelay(60000)`. -/
theorem single_hop_success_path (c : Consts) (env : Env) (fuel n k : Nat) (r : Ptr)
    (hm : c.INCLUDE_BEATSTACK = false)
    (hi : env.radio_init c.DEFAULT_RADIO_CHANNEL c.DEFAULT_PAN_ID (resolvedIdentity c env).1 = r)
    (hr : r ≠ NULL)
    (hs : env.comms_start r = c.COMMS_SUCCESS)
    (hk : ∀ j, j < k → env.comms_status j r ≠ c.COMMS_STARTED)
    (hk2 : env.comms_status k r = c.COMMS_STARTED)
    (hf : k < fuel) :
    (main_loop c env fuel n).fate = Fate.heartbeat ∧
      (main_loop c env fuel n).trace =
        beforeBootstrap c env ++
          [Event.radio_init c.DEFAULT_RADIO_CHANNEL c.DEFAULT_PAN_ID (resolvedIdentity c env).1 r,
            Event.eui64_set_radio r (resolvedIdentity c env).2,
            Event.log LogLevel.info "Starting single-hop" [],
            Event.comms_am_addrdisco_init r,
            Event.comms_start r c.COMMS_SUCCESS] ++
          failedPolls env r k 0 ++
          [Event.comms_status r c.COMMS_STARTED,
            Event.log LogLevel.debug "radio rdy" []] ++
          [Event.announcement_app_init r 300 (env.announcement_app_init r 300),
            if 0 = env.announcement_app_init r 300 then
              Event.log LogLevel.debug "annc started" []
            else Event.log LogLevel.err "annc" [],
            Event.mist_middleware_version,
            Event.log LogLevel.info "mist middleware %s" [LogArg.str env.mist_middleware_version],
            Event.mist_middleware_init r,
            Event.mist_example_init] ++
          heartbeat env n 0 ∧
      (main_loop c env fuel n).trace.countP Event.isPoll = k + 1 ∧
      (main_loop c env fuel n).trace.countP (fun e => e == Event.osDelay 1) = k ∧
      (main_loop c env fuel n).trace.countP Event.isDelay = k + n ∧
      (main_loop c env fuel n).trace.countP Event.isAnnouncementInit = 1 ∧
      (main_loop c env fuel n).trace.countP Event.isMiddlewareInit = 1 ∧
      (main_loop c env fuel n).trace.countP Event.isExampleInit = 1 ∧
      (∀ m i, heartbeat env (m + 1) i =
        [Event.osCounterGetSecond (env.osCounterGetSecond i),
          Event.log LogLevel.info "uptime: %u"
            [LogArg.num ((env.osCounterGetSecond i % 4294967296 : Nat) : Int)],
          Event.osDelay 60000] ++ heartbeat env m (i + 1)) := by
  have hrl : radioLayer c env (resolvedIdentity c env).1 = r := by rw [radioLayer, hi]
  have hal : activeLayer c env (resolvedIdentity c env).1 = r := by
    simp [activeLayer, hm, hrl]
  have hw := waitStarted_exact c env r k fuel 0 hf
    (fun j hj => by simpa using (hk j hj).symm) (by simpa using hk2)
  have hb : bootstrap c env fuel =
      ⟨(main_loop_identity c env State.boot).2.1,
        [Event.radio_init c.DEFAULT_RADIO_CHANNEL c.DEFAULT_PAN_ID (resolvedIdentity c env).1 r,
          Event.eui64_set_radio r (resolvedIdentity c env).2,
          Event.log LogLevel.info "Starting single-hop" [],
          Event.comms_am_addrdisco_init r,
          Event.comms_start r c.COMMS_SUCCESS] ++
        failedPolls env r k 0 ++
        [Event.comms_status r c.COMMS_STARTED, Event.log LogLevel.debug "radio rdy" []],
        Ending.returned r⟩ := by
    unfold bootstrap
    rw [radio_setup_of_attached c env fuel _ _ _ (by rw [hrl]; exact Ne.symm hr)
      (by rw [hal]; exact Ne.symm hr)]
    simp [hal, hrl, hs, hw, attachState, attachTrace, hm]
  have hmain := main_loop_of_started c env fuel n r (by rw [hb]) (Ne.symm hr)
  have hcl : consumerLayer c (bootstrap c env fuel).state r = r := by
    simp [consumerLayer, hm]
  rw [hcl] at hmain
  have ht : (main_loop c env fuel n).trace =
      beforeBootstrap c env ++
        [Event.radio_init c.DEFAULT_RADIO_CHANNEL c.DEFAULT_PAN_ID (resolvedIdentity c env).1 r,
          Event.eui64_set_radio r (resolvedIdentity c env).2,
          Event.log LogLevel.info "Starting single-hop" [],
          Event.comms_am_addrdisco_init r,
          Event.comms_start r c.COMMS_SUCCESS] ++
        failedPolls env r k 0 ++
        [Event.comms_status r c.COMMS_STARTED,
          Event.log LogLevel.debug "radio rdy" []] ++
        [Event.announcement_app_init r 300 (env.announcement_app_init r 300),
          if 0 = env.announcement_app_init r 300 then
            Event.log LogLevel.debug "annc started" []
          else Event.log LogLevel.err "annc" [],
          Event.mist_middleware_version,
          Event.log LogLevel.info "mist middleware %s" [LogArg.str env.mist_middleware_version],
          Event.mist_middleware_init r,
          Event.mist_example_init] ++
        heartbeat env n 0 := by
    rw [hmain, hb]
    simp only [afterBootstrap, DEVICE_ANNOUNCEMENT_PERIOD_S, List.append_assoc]
  have hbs := beforeBootstrap_stage c env
  obtain ⟨k1, k2, k3, _, k5, k6, k7⟩ := heartbeat_counts env n 0
  obtain ⟨f1, _, f3, f4, f5⟩ := failedPolls_counts env r k 0
  have fp := failedPolls_polls env r k 0
  have fd := failedPolls_delays env r k 0
  refine ⟨by rw [hmain], ht, ?_, ?_, ?_, ?_, ?_, ?_, fun m i => rfl⟩
  · rw [ht]
    simp only [List.countP_append, k1, fp,
      countP_eq_zero_of_stage _ _ _ hbs (fun e he => (identityStage_excludes e he).1)]
    by_cases ha : 0 = env.announcement_app_init r 300 <;> simp [ha, Event.isPoll]
  · rw [ht]
    simp only [List.countP_append, k3, fd,
      countP_eq_zero_of_stage _ _ _ hbs (fun e he => (identityStage_excludes e he).2.2.1)]
    by_cases ha : 0 = env.announcement_app_init r 300 <;> simp [ha]
  · rw [ht]
    simp only [List.countP_append, k2, f1,
      countP_eq_zero_of_stage _ _ _ hbs (fun e he => (identityStage_excludes e he).2.1)]
    by_cases ha : 0 = env.announcement_app_init r 300 <;> simp [ha, Event.isDelay]
  · rw [ht]
    simp only [List.countP_append, k5, f3,
      countP_eq_zero_of_stage _ _ _ hbs (fun e he => (identityStage_excludes e he).2.2.2.2.1)]
    by_cases ha : 0 = env.announcement_app_init r 300 <;> simp [ha, Event.isAnnouncementInit]
  · rw [ht]
    simp only [List.countP_append, k6, f4,
      countP_eq_zero_of_stage _ _ _ hbs (fun e he => (identityStage_excludes e he).2.2.2.2.2.1)]
    by_cases ha : 0 = env.announcement_app_init r 300 <;> simp [ha, Event.isMiddlewareInit]
  · rw [ht]
    simp only [List.countP_append, k7, f5,
      countP_eq_zero_of_stage _ _ _ hbs
        (fun e he => (identityStage_excludes e he).2.2.2.2.2.2.1)]
    by_cases ha : 0 = env.announcement_app_init r 300 <;> simp [ha, Event.isExampleInit]

/-- Instance of C1 at the sample constants (default address `0x0001`, no valid signature). -/
theorem fallback_identity_witness :
    (sampleConsts false).DEFAULT_AM_ADDR < 65536 ∧
      (sampleConsts false).SIG_GOOD ≠ sampleEnv.sigInit ∧
      resolvedIdentity (sampleConsts false) sampleEnv = (0x0001, [0, 0, 0, 0, 0, 0, 0, 1]) :=
  ⟨by decide, by decide,
    (fallback_identity (sampleConsts false) sampleEnv 3 1 (by decide) (by decide)).1⟩

/-- Instance of C2 at the sample constants with a valid signature (node id `0xBEEF`). -/
theorem valid_signature_identity_witness :
    (sampleConsts false).SIG_GOOD = signedEnv.sigInit ∧ signedEnv.sigGetNodeId < 65536 ∧
      resolvedIdentity (sampleConsts false) signedEnv = (0xBEEF, [1, 2, 3, 4, 5, 6, 7, 8]) :=
  ⟨by decide, by decide,
    (valid_signature_identity (sampleConsts false) signedEnv 3 1 (by decide) (by decide)).1⟩

/-- Instance of C3 at the multi-hop sample, where the third poll sees `COMMS_STARTED`. -/
theorem success_only_after_started_witness :
    (radio_setup (sampleConsts true) sampleEnv 3 State.boot 1 [0, 0, 0, 0, 0, 0, 0, 1]).ending
        = Ending.returned 7 ∧
      ∃ comms pre mid post,
        (radio_setup (sampleConsts true) sampleEnv 3 State.boot 1
            [0, 0, 0, 0, 0, 0, 0, 1]).trace =
          pre ++ [Event.comms_start comms (sampleConsts true).COMMS_SUCCESS] ++ mid ++
            [Event.comms_status comms (sampleConsts true).COMMS_STARTED] ++ post :=
  ⟨by decide,
    success_only_after_started (sampleConsts true) sampleEnv 3 State.boot 1
      [0, 0, 0, 0, 0, 0, 0, 1] 7 (by decide) (by decide)⟩

/-- Instance of C4 at the sample whose radio driver fails. -/
theorem radio_init_failed_no_side_effects_witness :
    deadRadioEnv.radio_init 11 0x22 1 = NULL ∧
      radio_setup (sampleConsts true) deadRadioEnv 3 State.boot 1 [0, 0, 0, 0, 0, 0, 0, 1] =
        ⟨State.boot, [Event.radio_init 11 0x22 1 NULL], Ending.returned NULL⟩ :=
  ⟨by decide,
    radio_init_failed_no_side_effects (sampleConsts true) deadRadioEnv 3 State.boot 1
      [0, 0, 0, 0, 0, 0, 0, 1] (by decide)⟩

/-- Instance of C5 at the sample whose layer rejects the start request, and at the sample stopped in the wait. -/
theorem start_rejected_without_polling_witness :
    ((radio_setup (sampleConsts true) rejectingEnv 3 State.boot 1 []).ending
          = Ending.returned NULL ∧
        (radio_setup (sampleConsts true) rejectingEnv 3 State.boot 1 []).trace.countP
          Event.isPoll = 0 ∧
        (radio_setup (sampleConsts true) rejectingEnv 3 State.boot 1 []).trace.countP
          Event.isDelay = 0) ∧
      (radio_setup (sampleConsts false) sampleEnv 1 State.boot 1 []).ending = Ending.waiting ∧
      sampleEnv.comms_start (activeLayer (sampleConsts false) sampleEnv 1) =
        (sampleConsts false).COMMS_SUCCESS :=
  ⟨(start_rejected_without_polling (sampleConsts true) rejectingEnv 3 State.boot 1 []).1
      (by decide) (by decide) (by decide),
    by decide,
    ((start_rejected_without_polling (sampleConsts false) sampleEnv 1 State.boot 1 []).2
      (Or.inl (by decide))).2.2.1⟩

/-- Instance of C6, amended, at the multi-hop sample: `radio_setup` returns
layer 7, the announcement service and the middleware receive layer 9. -/
theorem success_returns_radio_handle_witness :
    (radio_setup (sampleConsts true) sampleEnv 3 State.boot 1 []).ending = Ending.returned 7 ∧
      (bootstrap (sampleConsts true) sampleEnv 3).ending = Ending.returned 7 ∧
      activeLayer (sampleConsts true) sampleEnv
        (resolvedIdentity (sampleConsts true) sampleEnv).1 = 9 ∧
      (main_loop (sampleConsts true) sampleEnv 3 1).state.m_beat_comm =
        activeLayer (sampleConsts true) sampleEnv
          (resolvedIdentity (sampleConsts true) sampleEnv).1 ∧
      Event.mist_middleware_init 9 ∈ (main_loop (sampleConsts true) sampleEnv 3 1).trace ∧
      Event.announcement_app_init 9 300 0 ∈
        (main_loop (sampleConsts true) sampleEnv 3 1).trace :=
  ⟨by decide, by decide, by decide,
    ((success_returns_radio_handle (sampleConsts true) sampleEnv 3 State.boot 1 [] 7
      (by decide) (by decide)).2.2.2.2.2.2.2 1 7 (by decide) (by decide)).2.2.1 (by decide),
    by
      rw [((success_returns_radio_handle (sampleConsts true) sampleEnv 3 State.boot 1 [] 7
        (by decide) (by decide)).2.2.2.2.2.2.2 1 7 (by decide) (by decide)).2.1]
      decide,
    by
      rw [((success_returns_radio_handle (sampleConsts true) sampleEnv 3 State.boot 1 [] 7
        (by decide) (by decide)).2.2.2.2.2.2.2 1 7 (by decide) (by decide)).2.1]
      decide⟩

/-- Instance of C7 at the multi-hop sample with an announcement service that fails. -/
theorem announcement_failure_is_isolated_witness :
    (bootstrap (sampleConsts true) sampleEnv 3).ending = Ending.returned 7 ∧
      (main_loop (sampleConsts true) { sampleEnv with announcement_app_init := fun _ _ => 1 }
        3 2).fate = Fate.heartbeat ∧
      (main_loop (sampleConsts true) { sampleEnv with announcement_app_init := fun _ _ => 1 }
        3 2).trace.countP Event.isMiddlewareInit = 1 :=
  ⟨by decide,
    (announcement_failure_is_isolated (sampleConsts true) sampleEnv 3 2 7 (fun _ _ => 1)
      (by decide) (by decide)).1,
    (announcement_failure_is_isolated (sampleConsts true) sampleEnv 3 2 7 (fun _ _ => 1)
      (by decide) (by decide)).2.2.2.1⟩

/-- Instance of C8 at the sample whose radio driver fails. -/
theorem bootstrap_failure_halts_witness :
    (bootstrap (sampleConsts false) deadRadioEnv 3).ending = Ending.returned NULL ∧
      (main_loop (sampleConsts false) deadRadioEnv 3 2).fate = Fate.halted ∧
      (main_loop (sampleConsts false) deadRadioEnv 3 2).trace.countP Event.isErr = 1 :=
  ⟨by decide,
    (bootstrap_failure_halts (sampleConsts false) deadRadioEnv 3 2 (by decide)).1,
    (bootstrap_failure_halts (sampleConsts false) deadRadioEnv 3 2 (by decide)).2.2.1⟩

/-- Instance of C9 at the sample whose mesh stack cannot be created. -/
theorem stack_attach_failure_is_fatal_witness :
    noMeshEnv.radio_init 11 0x22 1 = 7 ∧ noMeshEnv.beatstack_create 1 7 = NULL ∧
      (radio_setup (sampleConsts true) noMeshEnv 3 State.boot 1 []).ending = Ending.halted :=
  ⟨by decide, by decide,
    congrArg Run.ending
      (stack_attach_failure_is_fatal (sampleConsts true) noMeshEnv 3 State.boot 1 [] 7
        (by decide) (by decide) (by decide) (by decide))⟩

/-- Instance of C10 at the single-hop sample with two failed polls. -/
theorem single_hop_success_path_witness :
    (main_loop (sampleConsts false) sampleEnv 3 2).fate = Fate.heartbeat ∧
      (main_loop (sampleConsts false) sampleEnv 3 2).trace.countP Event.isPoll = 2 + 1 ∧
      (main_loop (sampleConsts false) sampleEnv 3 2).trace.countP
        (fun e => e == Event.osDelay 1) = 2 :=
  ⟨(single_hop_success_path (sampleConsts false) sampleEnv 3 2 2 7 (by decide) (by decide)
      (by decide) (by decide) (by decide) (by decide) (by decide)).1,
    (single_hop_success_path (sampleConsts false) sampleEnv 3 2 2 7 (by decide) (by decide)
      (by decide) (by decide) (by decide) (by decide) (by decide)).2.2.1,
    (single_hop_success_path (sampleConsts false) sampleEnv 3 2 2 7 (by decide) (by decide)
      (by decide) (by decide) (by decide) (by decide) (by decide)).2.2.2.1⟩

end MistExample
